import Mathlib

/-!
# MelodyMind backend — shallow embedding and verification

This file embeds, in Lean, the parts of the MelodyMind backend (a mood-tracking
and music-recommendation web service) that its specification makes checkable
claims about, and proves or refutes those claims.

Embedding conventions:
* MongoDB collections are lists of documents; a route handler is a pure
  function from the relevant documents (and the authenticated user id) to an
  `Except ApiError` result, returning updated documents where the handler
  writes.
* Timestamps (`createdAt`, `startedAt`, ...) are `Nat` milliseconds since the
  epoch; the JS `getHours()` call is embedded as the UTC hour of the
  millisecond timestamp.
* A Mongo `sort` is embedded as a stable insertion sort (`sortBy`) on a
  boolean "comes first" relation mirroring the sort keys.
* JavaScript truthiness on `x || d` for an optional numeric field is embedded
  by `jsOr`, which yields `d` both when the field is absent and when it is `0`.
-/

namespace MelodyMind

/-- A stable insertion: `x` is placed before the first element `y` with
`le x y`. Used to embed MongoDB sorts. -/
def insertBy {α : Type} (le : α → α → Bool) (x : α) : List α → List α
  | [] => [x]
  | y :: ys => if le x y then x :: y :: ys else y :: insertBy le x ys

/-- Stable insertion sort on a boolean "comes first or ties" relation;
embeds a MongoDB `sort` stage. -/
def sortBy {α : Type} (le : α → α → Bool) : List α → List α
  | [] => []
  | x :: xs => insertBy le x (sortBy le xs)

/-- Embeds the JavaScript expression `x || d` for an optional numeric field:
the default applies both when the field is absent and when it is `0`
(which is falsy in JavaScript). -/
def jsOr (x : Option Int) (d : Int) : Int :=
  match x with
  | some v => if v = 0 then d else v
  | none => d

/-- The service's error taxonomy (spec §7), as surfaced by the route handlers. -/
inductive ApiError : Type
  | validation (msg : String)
  | authorization (msg : String)
  | notFound (msg : String)
  | conflict (msg : String)
deriving DecidableEq, Repr

abbrev UserId := Nat

/-! ## Mood logging data model (src/unnamed/part_006, MoodLog schema) -/

/-- `mood` enum of the MoodLog schema. -/
inductive Mood : Type
  | happy | sad | energetic | calm | anxious | excited
  | melancholic | focused | angry | peaceful | romantic | nostalgic
deriving DecidableEq, Repr

/-- All twelve values of the MoodLog `mood` enum. -/
def allMoods : List Mood :=
  [.happy, .sad, .energetic, .calm, .anxious, .excited,
   .melancholic, .focused, .angry, .peaceful, .romantic, .nostalgic]

/-- `detectionMethod` enum of the MoodLog schema. -/
inductive DetectionMethod : Type
  | camera | voice | text | manual | activity | journal
deriving DecidableEq, Repr

/-- `context.weather` enum of the MoodLog schema. -/
inductive Weather : Type
  | sunny | cloudy | rainy | snowy | stormy | foggy | unknown
deriving DecidableEq, Repr

/-- `context.timeOfDay` enum of the MoodLog schema. -/
inductive TimeOfDay : Type
  | morning | afternoon | evening | night
deriving DecidableEq, Repr

/-- `triggers` element enum of the MoodLog schema. -/
inductive Trigger : Type
  | work | family | friends | health | money | relationship
  | achievement | loss | stress | exercise | music | nature | other
deriving DecidableEq, Repr

/-- The `context` subdocument of a MoodLog. `timeOfDay` is optional in memory;
the pre-save hook fills it before the document is persisted. -/
structure MoodContext : Type where
  location : Option String := none
  activity : Option String := none
  weather : Weather := .unknown
  timeOfDay : Option TimeOfDay := none
deriving DecidableEq, Repr

/-- The denormalized `previousMood` snapshot embedded in a MoodLog. -/
structure PrevMood : Type where
  mood : Mood
  intensity : Int
  timestamp : Nat
deriving DecidableEq, Repr

/-- A MoodLog document (src/unnamed/part_006 `moodLogSchema`). -/
structure MoodLog : Type where
  user : UserId
  mood : Mood
  intensity : Int
  detectionMethod : DetectionMethod
  confidence : ℚ := 1
  notes : Option String := none
  context : MoodContext := {}
  triggers : List Trigger := []
  previousMood : Option PrevMood := none
  sessionId : Option String := none
  createdAt : Nat
deriving DecidableEq, Repr

/-- UTC hour of a millisecond epoch timestamp; embeds `new Date(t).getHours()`. -/
def hourOfTimestamp (t : Nat) : Nat :=
  t / 3600000 % 24

/-- The four time-of-day bands of the MoodLog pre-save hook
(src/unnamed/part_006 lines 713-727). -/
def deriveTimeOfDay (hour : Nat) : TimeOfDay :=
  if 5 ≤ hour ∧ hour < 12 then .morning
  else if 12 ≤ hour ∧ hour < 17 then .afternoon
  else if 17 ≤ hour ∧ hour < 21 then .evening
  else .night

/-- The MoodLog `pre('save')` hook: derives `context.timeOfDay` from the
creation hour when the caller did not supply one. -/
def applyPreSave (m : MoodLog) : MoodLog :=
  match m.context.timeOfDay with
  | some _ => m
  | none =>
      { m with context :=
          { m.context with
              timeOfDay := some (deriveTimeOfDay (hourOfTimestamp m.createdAt)) } }

/-- A document of maximal `createdAt` among `x :: l`
(ties resolved to the earliest listed document, matching the spec's
"ties broken by insertion order"). -/
def latestFrom (x : MoodLog) : List MoodLog → MoodLog
  | [] => x
  | y :: ys =>
      let b := latestFrom y ys
      if x.createdAt < b.createdAt then b else x

/-- Picks a document of maximal `createdAt`; embeds
`findOne(...).sort({ createdAt: -1 }).limit(1)`. -/
def latestOf : List MoodLog → Option MoodLog
  | [] => none
  | x :: xs => some (latestFrom x xs)

/-- `MoodLog.findOne({ user }).sort({ createdAt: -1 }).limit(1)`
(src/routes/moods.js lines 53-55). -/
def findLatest (db : List MoodLog) (u : UserId) : Option MoodLog :=
  latestOf (db.filter (fun l => l.user == u))

/-- Request body of `POST /api/moods` after validation
(src/routes/moods.js lines 41-50), with the handler's defaults. -/
structure LogMoodRequest : Type where
  mood : Mood
  intensity : Int
  detectionMethod : DetectionMethod
  confidence : ℚ := 1
  notes : Option String := none
  location : Option String := none
  activity : Option String := none
  weather : Option Weather := none
  timeOfDay : Option TimeOfDay := none
  triggers : List Trigger := []
  sessionId : Option String := none
deriving DecidableEq, Repr

/-- The `POST /api/moods` handler body (src/routes/moods.js lines 52-79):
fetches the user's most recent prior MoodLog, embeds it as `previousMood`,
builds the document and saves it (running the pre-save hook). Returns the
saved document and the updated collection. -/
def logMood (db : List MoodLog) (u : UserId) (r : LogMoodRequest) (now : Nat) :
    MoodLog × List MoodLog :=
  let prev := findLatest db u
  let doc : MoodLog :=
    { user := u
      mood := r.mood
      intensity := r.intensity
      detectionMethod := r.detectionMethod
      confidence := r.confidence
      notes := r.notes
      context :=
        { location := r.location
          activity := r.activity
          weather := r.weather.getD .unknown
          timeOfDay := r.timeOfDay }
      triggers := r.triggers
      previousMood := prev.map (fun p =>
        { mood := p.mood, intensity := p.intensity, timestamp := p.createdAt })
      sessionId := r.sessionId
      createdAt := now }
  let saved := applyPreSave doc
  (saved, db ++ [saved])

/-! ## Mood frequency aggregation (src/unnamed/part_006 lines 758-780,
src/routes/moods.js lines 211-243) -/

/-- One group of the `getMoodFrequency` aggregation output:
`{ _id: mood, count, avgIntensity }`. -/
structure FreqEntry : Type where
  mood : Mood
  count : Nat
  avgIntensity : ℚ
deriving DecidableEq, Repr

/-- The `$match` stage `{ user, createdAt: { $gte: startDate } }`. -/
def windowLogs (db : List MoodLog) (u : UserId) (startDate : Nat) : List MoodLog :=
  db.filter (fun l => l.user == u && decide (startDate ≤ l.createdAt))

/-- The `$sort: { count: -1 }` stage's ordering. -/
def freqBefore (a b : FreqEntry) : Bool :=
  decide (b.count ≤ a.count)

/-- The `$group: { _id: "$mood", count: { $sum: 1 }, avgIntensity:
{ $avg: "$intensity" } }` stage for one mood key: no group is emitted for a
mood absent from the window. -/
def freqGroup (logs : List MoodLog) (m : Mood) : Option FreqEntry :=
  let ls := logs.filter (fun l => l.mood == m)
  if ls.length = 0 then none
  else some { mood := m, count := ls.length,
              avgIntensity := ((ls.map (·.intensity)).sum : ℚ) / (ls.length : ℚ) }

/-- `MoodLog.getMoodFrequency`: matches the user's logs in the trailing
window, groups them by mood with `count` and `avgIntensity`, and sorts the
groups by descending count. -/
def getMoodFrequency (db : List MoodLog) (u : UserId) (startDate : Nat) :
    List FreqEntry :=
  sortBy freqBefore (allMoods.filterMap (freqGroup (windowLogs db u startDate)))

/-- Concrete one-log history; fixture for the mood-frequency counterexample. -/
def freqLogW : MoodLog :=
  { user := 1, mood := .happy, intensity := 5, detectionMethod := .text,
    createdAt := 100 }

/-! ## Mood log update route (src/routes/moods.js lines 415-482) -/

/-- A caller-supplied `context` fragment; the handler merges it over the
stored context with `{ ...moodLog.context, ...req.body.context }`. -/
structure ContextPatch : Type where
  location : Option String := none
  activity : Option String := none
  weather : Option Weather := none
  timeOfDay : Option TimeOfDay := none
deriving DecidableEq, Repr

/-- The object spread `{ ...c, ...p }` over the context subdocument. -/
def mergeContext (c : MoodContext) (p : ContextPatch) : MoodContext :=
  { location := p.location.orElse (fun _ => c.location)
    activity := p.activity.orElse (fun _ => c.activity)
    weather := p.weather.getD c.weather
    timeOfDay := p.timeOfDay.orElse (fun _ => c.timeOfDay) }

/-- The request body of `PUT /api/moods/:id`: a JSON object that may carry a
new value for any MoodLog field. The handler only ever reads the
`allowedUpdates` fields `notes`, `context` and `triggers`. -/
structure MoodUpdateBody : Type where
  mood : Option Mood := none
  intensity : Option Int := none
  detectionMethod : Option DetectionMethod := none
  confidence : Option ℚ := none
  notes : Option String := none
  context : Option ContextPatch := none
  triggers : Option (List Trigger) := none
  previousMood : Option PrevMood := none
  sessionId : Option String := none
  createdAt : Option Nat := none
deriving DecidableEq, Repr

/-- The `allowedUpdates` loop of `PUT /api/moods/:id`
(src/routes/moods.js lines 452-466): copies `notes` and `triggers` when
supplied and merges a supplied `context` over the stored one; every other
body field is ignored. -/
def applyMoodUpdate (m : MoodLog) (b : MoodUpdateBody) : MoodLog :=
  { m with
      notes := b.notes.orElse (fun _ => m.notes)
      context := match b.context with
        | some p => mergeContext m.context p
        | none => m.context
      triggers := b.triggers.getD m.triggers }

/-- The `PUT /api/moods/:id` handler on a found mood log: ownership check,
then the allowed-updates assignment, then `save()` (which re-runs the
pre-save hook). -/
def updateMoodRoute (m : MoodLog) (requester : UserId) (b : MoodUpdateBody) :
    Except ApiError MoodLog :=
  if m.user ≠ requester then
    .error (.authorization "Access denied. You can only update your own mood logs")
  else
    .ok (applyPreSave (applyMoodUpdate m b))

/-! ## Song data model and routes (src/models/Song.js, src/routes/songs.js) -/

/-- `moodTags` element enum of the Song schema. -/
inductive SongMood : Type
  | happy | sad | energetic | calm | anxious | excited | melancholic | focused
  | romantic | angry | peaceful | uplifting | nostalgic | mysterious | dramatic
deriving DecidableEq, Repr

/-- `genre` enum of the Song schema. -/
inductive Genre : Type
  | pop | rock | jazz | classical | electronic | hipHop | country | folk
  | blues | reggae | ambient | indie | alternative | metal | punk | rAndB
  | soul | funk | disco | house | techno | trance | dubstep | other
deriving DecidableEq, Repr

/-- `tempo` enum of the Song schema. -/
inductive Tempo : Type
  | slow | medium | fast
deriving DecidableEq, Repr

/-- `language` enum of the Song schema. -/
inductive Lang : Type
  | en | es | fr | de | it | pt | ru | ja | ko | zh | instrumental
deriving DecidableEq, Repr

/-- A Song document (src/models/Song.js `songSchema`). -/
structure Song : Type where
  id : Nat
  title : String
  artist : String
  album : Option String := none
  genre : Genre := .other
  moodTags : List SongMood := []
  language : Lang := .en
  duration : Int
  filePath : String
  coverImage : Option String := none
  uploadedBy : UserId
  isPublic : Bool := true
  playCount : Int := 0
  likes : Int := 0
  tempo : Tempo := .medium
  energy : Int := 5
  valence : Int := 5
  createdAt : Nat
  updatedAt : Nat
deriving DecidableEq, Repr

/-- `songSchema.methods.incrementPlayCount` (src/models/Song.js lines
105-108) together with the pre-save hook that refreshes `updatedAt`. -/
def Song.incrementPlayCount (s : Song) (now : Nat) : Song :=
  { s with playCount := s.playCount + 1, updatedAt := now }

/-- Query of `GET /api/songs/recommendations` after validation
(src/routes/songs.js lines 250-255), with the handler's defaults. -/
structure RecRequest : Type where
  mood : Option SongMood := none
  energy : Option Int := none
  valence : Option Int := none
  limit : Nat := 20
deriving DecidableEq, Repr

/-- The recommendation filter (src/routes/songs.js lines 257-282): visible to
the caller (public or own upload), matching a supplied mood tag, and within
the clamped `±2` band around a supplied energy and valence. -/
def recFilter (u : UserId) (r : RecRequest) (s : Song) : Bool :=
  (s.isPublic || s.uploadedBy == u) &&
  (match r.mood with
    | some m => s.moodTags.contains m
    | none => true) &&
  (match r.energy with
    | some e => decide (max 1 (e - 2) ≤ s.energy ∧ s.energy ≤ min 10 (e + 2))
    | none => true) &&
  (match r.valence with
    | some v => decide (max 1 (v - 2) ≤ s.valence ∧ s.valence ≤ min 10 (v + 2))
    | none => true)

/-- The `sort({ playCount: -1, likes: -1, createdAt: -1 })` ordering of the
recommendations query. -/
def recBefore (a b : Song) : Bool :=
  if a.playCount == b.playCount then
    if a.likes == b.likes then decide (b.createdAt ≤ a.createdAt)
    else decide (b.likes ≤ a.likes)
  else decide (b.playCount ≤ a.playCount)

/-- The `GET /api/songs/recommendations` handler: filter, rank, take the
requested limit. -/
def recommendSongs (db : List Song) (u : UserId) (r : RecRequest) : List Song :=
  (sortBy recBefore (db.filter (recFilter u r))).take r.limit

/-- `GET /api/songs/:id` on a found song (src/routes/songs.js lines 306-329):
404 when absent, 403 when the song is private and not the caller's upload. -/
def getSongRoute (found : Option Song) (u : UserId) : Except ApiError Song :=
  match found with
  | none => .error (.notFound "Song not found")
  | some s =>
      if s.isPublic = false ∧ s.uploadedBy ≠ u then
        .error (.authorization "Access denied to this song")
      else .ok s

/-- `POST /api/songs/:id/play` (src/routes/songs.js lines 456-485): 404 when
absent, otherwise increments the play count with no ownership or visibility
check. -/
def playSongRoute (found : Option Song) (u : UserId) (now : Nat) :
    Except ApiError Song :=
  match found with
  | none => .error (.notFound "Song not found")
  | some s => .ok (s.incrementPlayCount now)

/-! ## Playlists (routes in src/unnamed/part_006; the Playlist schema file is
not under src/) -/

/-- The `generatedFor` record of an auto-generated playlist. -/
structure GeneratedFor : Type where
  mood : Option SongMood := none
  tempo : Option Tempo := none
  genre : Option Genre := none
deriving DecidableEq, Repr

/-- Modelled from the spec: the Playlist schema file is missing from src/
(only its callers are present). Fields follow spec §3 — name, description,
owner, ordered song references, mood/filter tag via `generatedFor`,
`isPublic`, `isAutoGenerated`, `playCount`, follower set — and the fields the
route handlers construct. -/
structure Playlist : Type where
  name : String
  description : Option String := none
  owner : UserId
  songs : List Nat := []
  isPublic : Bool := false
  isAutoGenerated : Bool := false
  generatedFor : Option GeneratedFor := none
  playCount : Int := 0
  followers : List UserId := []
deriving DecidableEq, Repr

/-- Modelled from the spec: `playlist.incrementPlayCount()` lives in the
missing Playlist schema file. Per spec §3 `playCount` is a monotonic counter
and §6 lists an "increment play count" operation; modelled—like the Song
method that is present in src/—as adding one and persisting. -/
def Playlist.incrementPlayCount (p : Playlist) : Playlist :=
  { p with playCount := p.playCount + 1 }

/-- `GET /api/playlists/:id` on a found playlist (src/unnamed/part_006 lines
297-330): 404 when absent, 403 when private and not owned by the caller. -/
def getPlaylistRoute (found : Option Playlist) (u : UserId) :
    Except ApiError Playlist :=
  match found with
  | none => .error (.notFound "Playlist not found")
  | some p =>
      if p.isPublic = false ∧ p.owner ≠ u then
        .error (.authorization "Access denied to this playlist")
      else .ok p

/-- `POST /api/playlists/:id/play` (src/unnamed/part_006 lines 552-578): 404
when absent, otherwise increments the play count with no ownership or
visibility check. -/
def playPlaylistRoute (found : Option Playlist) (u : UserId) :
    Except ApiError Playlist :=
  match found with
  | none => .error (.notFound "Playlist not found")
  | some p => .ok p.incrementPlayCount

/-- Query of `GET /api/playlists/auto-generate` after validation
(src/unnamed/part_006 lines 224-229), with the handler's defaults. -/
structure AGRequest : Type where
  mood : Option SongMood := none
  tempo : Option Tempo := none
  genre : Option Genre := none
  limit : Nat := 20
deriving DecidableEq, Repr

/-- The auto-generate song filter (src/unnamed/part_006 lines 231-241): must
be public or the caller's own upload, AND-ed with any supplied mood, tempo
and genre constraints. -/
def agSongFilter (u : UserId) (r : AGRequest) (s : Song) : Bool :=
  (s.isPublic || s.uploadedBy == u) &&
  (match r.mood with
    | some m => s.moodTags.contains m
    | none => true) &&
  (match r.tempo with
    | some t => s.tempo == t
    | none => true) &&
  (match r.genre with
    | some g => s.genre == g
    | none => true)

/-- The `sort({ playCount: -1, likes: -1 })` ordering of the auto-generate
query. -/
def agBefore (a b : Song) : Bool :=
  if a.playCount == b.playCount then decide (b.likes ≤ a.likes)
  else decide (b.playCount ≤ a.playCount)

/-- The songs selected by auto-generate: filter, rank, take the limit. -/
def agSongs (db : List Song) (u : UserId) (r : AGRequest) : List Song :=
  (sortBy agBefore (db.filter (agSongFilter u r))).take r.limit

/-- `s.charAt(0).toUpperCase() + s.slice(1)`. -/
def capitalize (s : String) : String :=
  match s.data with
  | [] => ""
  | c :: cs => ⟨Char.toUpper c :: cs⟩

/-- The lowercase wire name of a song mood tag. -/
def SongMood.str : SongMood → String
  | .happy => "happy" | .sad => "sad" | .energetic => "energetic"
  | .calm => "calm" | .anxious => "anxious" | .excited => "excited"
  | .melancholic => "melancholic" | .focused => "focused"
  | .romantic => "romantic" | .angry => "angry" | .peaceful => "peaceful"
  | .uplifting => "uplifting" | .nostalgic => "nostalgic"
  | .mysterious => "mysterious" | .dramatic => "dramatic"

/-- The lowercase wire name of a tempo. -/
def Tempo.str : Tempo → String
  | .slow => "slow" | .medium => "medium" | .fast => "fast"

/-- The lowercase wire name of a genre. -/
def Genre.str : Genre → String
  | .pop => "pop" | .rock => "rock" | .jazz => "jazz"
  | .classical => "classical" | .electronic => "electronic"
  | .hipHop => "hip-hop" | .country => "country" | .folk => "folk"
  | .blues => "blues" | .reggae => "reggae" | .ambient => "ambient"
  | .indie => "indie" | .alternative => "alternative" | .metal => "metal"
  | .punk => "punk" | .rAndB => "r&b" | .soul => "soul" | .funk => "funk"
  | .disco => "disco" | .house => "house" | .techno => "techno"
  | .trance => "trance" | .dubstep => "dubstep" | .other => "other"

/-- The synthesized playlist name (src/unnamed/part_006 lines 255-259). -/
def autoName (r : AGRequest) : String :=
  let n := match r.mood with
    | some m => capitalize m.str ++ " Mix"
    | none => "Auto-Generated Playlist"
  let n := match r.tempo with
    | some t => n ++ " (" ++ capitalize t.str ++ " Tempo)"
    | none => n
  match r.genre with
  | some g => n ++ " - " ++ capitalize g.str
  | none => n

/-- The `GET /api/playlists/auto-generate` handler (src/unnamed/part_006
lines 208-292): selects matching songs, fails with 404 when none match, else
persists a private auto-generated playlist of exactly those songs. -/
def autoGenerate (db : List Song) (u : UserId) (r : AGRequest) :
    Except ApiError Playlist :=
  let songs := agSongs db u r
  if songs.isEmpty then
    .error (.notFound "No songs found matching the criteria")
  else
    .ok { name := autoName r
          description := some "Automatically generated playlist based on your preferences"
          owner := u
          songs := songs.map (fun s => s.id)
          isAutoGenerated := true
          generatedFor := some { mood := r.mood, tempo := r.tempo, genre := r.genre }
          isPublic := false }

/-- A concrete public song; fixture for witnesses. -/
def songW : Song :=
  { id := 10, title := "A", artist := "B", duration := 120, filePath := "f",
    uploadedBy := 2, isPublic := true, energy := 7, valence := 4,
    moodTags := [.happy], createdAt := 0, updatedAt := 0 }

/-- A concrete private song owned by user 2; fixture for witnesses. -/
def privateSongW : Song :=
  { id := 11, title := "C", artist := "D", duration := 90, filePath := "g",
    uploadedBy := 2, isPublic := false, createdAt := 0, updatedAt := 0 }

/-- A concrete private playlist owned by user 2; fixture for witnesses. -/
def privatePlaylistW : Playlist :=
  { name := "P", owner := 2, isPublic := false, playCount := 4 }

/-- The playlist auto-generate produces for user 2 over
`[songW, privateSongW]` with no filters; fixture for the C7 witness. -/
def agPlaylistW : Playlist :=
  { name := "Auto-Generated Playlist"
    description := some "Automatically generated playlist based on your preferences"
    owner := 2
    songs := [10, 11]
    isAutoGenerated := true
    generatedFor := some {}
    isPublic := false }

/-- A concrete stored mood log owned by user 1; fixture for the C9 witness. -/
def moodLogW : MoodLog :=
  { user := 1, mood := .happy, intensity := 8, detectionMethod := .camera,
    context := { timeOfDay := some .morning }, createdAt := 500 }

/-- An update body that tries to overwrite every field; fixture for the C9
witness. -/
def bodyW : MoodUpdateBody :=
  { mood := some .sad, intensity := some 2, detectionMethod := some .manual,
    confidence := some 0, notes := some "n", triggers := some [.work],
    previousMood := some { mood := .calm, intensity := 1, timestamp := 1 },
    sessionId := some "x", createdAt := some 9 }

/-- The stored result of applying `bodyW` to `moodLogW`: only notes and
triggers change. -/
def moodLogUpdatedW : MoodLog :=
  { moodLogW with notes := some "n", triggers := [.work] }

/-! ## Game and game-session data model (src/models/Game.js, src/unnamed/part_007) -/

/-- mood enum shared by `moodBefore`/`moodAfter` of a GameSession. -/
inductive GameMood : Type
  | happy | sad | energetic | calm | anxious | excited | melancholic
  | focused | angry | peaceful | stressed | bored | lonely | overwhelmed
deriving DecidableEq, Repr

/-- `difficulty` enum. -/
inductive Difficulty : Type
  | easy | medium | hard
deriving DecidableEq, Repr

/-- A `moodBefore`/`moodAfter` subdocument: mood plus 1-10 intensity. -/
structure MoodState : Type where
  mood : GameMood
  intensity : Int
deriving DecidableEq, Repr

/-- `achievements` element enum of the GameSession schema. -/
inductive Achievement : Type
  | firstPlay | perfectScore | quickFinish | moodImprover
  | streak3 | streak7 | highScorer
deriving DecidableEq, Repr

/-- The schema-less `gameData` bag, restricted to the keys the code reads
(`isFirstPlay`, `expectedDuration`, `averageScore`); absent keys are `none`
(`isFirstPlay` is read only for truthiness, so absent and `false` coincide). -/
structure GameData : Type where
  isFirstPlay : Bool := false
  expectedDuration : Option Int := none
  averageScore : Option Int := none
deriving DecidableEq, Repr

/-- A caller-supplied `gameData` fragment; `{ ...this.gameData, ...gameData }`
overrides exactly the keys the fragment carries. -/
structure GameDataPatch : Type where
  isFirstPlay : Option Bool := none
  expectedDuration : Option Int := none
  averageScore : Option Int := none
deriving DecidableEq, Repr

/-- The JavaScript object spread `{ ...g, ...p }`. -/
def GameData.merge (g : GameData) (p : GameDataPatch) : GameData :=
  { isFirstPlay := p.isFirstPlay.getD g.isFirstPlay
    expectedDuration := p.expectedDuration.orElse (fun _ => g.expectedDuration)
    averageScore := p.averageScore.orElse (fun _ => g.averageScore) }

/-- A Game catalog document (src/models/Game.js), restricted to the fields the
session routes read. -/
structure Game : Type where
  id : Nat
  isActive : Bool := true
  difficulty : Difficulty
  estimatedDuration : Int
  playCount : Int := 0
deriving DecidableEq, Repr

/-- A GameSession document (src/unnamed/part_007 `gameSessionSchema`).
`moodAfter` defaults to `{ mood: null, intensity: null }`, embedded as
`none`. -/
structure GameSession : Type where
  user : UserId
  game : Nat
  sessionId : String
  moodBefore : MoodState
  moodAfter : Option MoodState := none
  score : Int := 0
  maxScore : Int := 0
  duration : Int := 0
  completed : Bool := false
  completionPercentage : Int := 0
  difficulty : Difficulty
  gameData : GameData := {}
  achievements : List Achievement := []
  startedAt : Nat
  completedAt : Option Nat := none
deriving DecidableEq, Repr

/-- The `moodImprovement` virtual (src/unnamed/part_007 lines 115-120):
`null` when either intensity is missing (or `0`, which is falsy), else the
signed intensity difference. -/
def moodImprovement (s : GameSession) : Option Int :=
  match s.moodAfter with
  | none => none
  | some ma =>
      if ma.intensity = 0 ∨ s.moodBefore.intensity = 0 then none
      else some (ma.intensity - s.moodBefore.intensity)

/-- The `this.moodImprovement && this.moodImprovement >= 2` condition of the
mood-improver achievement. -/
def moodImproverFlag (s : GameSession) : Bool :=
  match moodImprovement s with
  | none => false
  | some i => !(i == 0) && decide (2 ≤ i)

/-- `calculateAchievements` (src/unnamed/part_007 lines 139-168): rebuilds the
`achievements` array from the five fixed rules, in source order. -/
def calculateAchievements (s : GameSession) : GameSession :=
  let achievements :=
    (if s.gameData.isFirstPlay then [Achievement.firstPlay] else []) ++
    (if s.score = s.maxScore ∧ 0 < s.maxScore then [Achievement.perfectScore] else []) ++
    (if s.duration < jsOr s.gameData.expectedDuration 300 then [Achievement.quickFinish] else []) ++
    (if moodImproverFlag s then [Achievement.moodImprover] else []) ++
    (if 3 * jsOr s.gameData.averageScore 0 < 2 * s.score then [Achievement.highScorer] else [])
  { s with achievements := achievements }

/-- The field updates `completeSession` performs before it recomputes
achievements (src/unnamed/part_007 lines 124-130): records `moodAfter`,
`score`, the completion flag and timestamp, the duration in whole seconds
(`Math.floor`, embedded as flooring division), merges the caller's `gameData`
and sets `completionPercentage := 100`. -/
def completeBase (s : GameSession) (moodAfter : MoodState) (score : Int)
    (gameData : GameDataPatch) (now : Nat) : GameSession :=
  { s with
      moodAfter := some moodAfter
      score := score
      completed := true
      completedAt := some now
      duration := Int.fdiv ((now : Int) - (s.startedAt : Int)) 1000
      gameData := s.gameData.merge gameData
      completionPercentage := 100 }

/-- `completeSession` (src/unnamed/part_007 lines 123-136): the field updates
followed by `calculateAchievements`. -/
def completeSession (s : GameSession) (moodAfter : MoodState) (score : Int)
    (gameData : GameDataPatch) (now : Nat) : GameSession :=
  calculateAchievements (completeBase s moodAfter score gameData now)

/-- The session constructed by `POST /api/games/:id/start`
(src/unnamed/part_005 lines 189-213): a fresh session whose `gameData` records
whether this is the user's first session with this game and the game's
expected duration in seconds. -/
def startSession (sessions : List GameSession) (u : UserId) (g : Game)
    (moodBefore : MoodState) (difficulty : Difficulty) (now : Nat) : GameSession :=
  let previousSessions :=
    (sessions.filter (fun s => s.user == u && s.game == g.id)).length
  { user := u
    game := g.id
    sessionId := toString u ++ "_" ++ toString g.id ++ "_" ++ toString now
    moodBefore := moodBefore
    difficulty := difficulty
    startedAt := now
    gameData :=
      { isFirstPlay := previousSessions == 0
        expectedDuration := some (g.estimatedDuration * 60) } }

/-- Request body of `PUT /api/games/sessions/:sessionId/complete` after
validation, with the handler's `maxScore = score` default applied at the
destructuring site. -/
structure CompleteRequest : Type where
  moodAfter : MoodState
  score : Int
  maxScore : Option Int := none
  gameData : GameDataPatch := {}
deriving DecidableEq, Repr

/-- The `PUT /api/games/sessions/:sessionId/complete` handler
(src/unnamed/part_005 lines 271-310): finds the caller's session, rejects a
missing session with 404 and an already-completed one with the conflict error,
then sets `maxScore` and completes the session. Returns the response together
with the updated collection. -/
def completeRoute (db : List GameSession) (u : UserId) (sid : String)
    (r : CompleteRequest) (now : Nat) :
    Except ApiError GameSession × List GameSession :=
  match db.find? (fun s => s.sessionId == sid && s.user == u) with
  | none => (.error (.notFound "Game session not found"), db)
  | some s =>
      if s.completed then
        (.error (.conflict "Game session already completed"), db)
      else
        let s1 := { s with maxScore := r.maxScore.getD r.score }
        let s2 := completeSession s1 r.moodAfter r.score r.gameData now
        (.ok s2,
         db.map (fun t => if t.sessionId == sid && t.user == u then s2 else t))

/-- A concrete session that has gone through one completion; fixture for the
double-completion scenario. -/
def completedSessionW : GameSession :=
  completeSession
    { user := 1, game := 3, sessionId := "1_3_1000",
      moodBefore := { mood := .sad, intensity := 4 }, difficulty := .easy,
      startedAt := 1000, maxScore := 10,
      gameData := { isFirstPlay := true, expectedDuration := some 300 } }
    { mood := .happy, intensity := 7 } 10 {} 2000

theorem mem_insertBy {α : Type} (le : α → α → Bool) (x : α) (l : List α) (a : α) :
    a ∈ insertBy le x l ↔ a = x ∨ a ∈ l := by
  induction l with
  | nil => simp [insertBy]
  | cons y ys ih =>
    simp only [insertBy]
    split
    · simp [List.mem_cons]
    · simp [List.mem_cons, ih]
      tauto

theorem mem_sortBy {α : Type} (le : α → α → Bool) (l : List α) (a : α) :
    a ∈ sortBy le l ↔ a ∈ l := by
  induction l with
  | nil => simp [sortBy]
  | cons x xs ih => simp [sortBy, mem_insertBy, ih, List.mem_cons]

theorem latestFrom_mem (x : MoodLog) (l : List MoodLog) :
    latestFrom x l ∈ x :: l := by
  induction l generalizing x with
  | nil => simp [latestFrom]
  | cons y ys ih =>
    simp only [latestFrom]
    split
    · exact List.mem_cons_of_mem x (ih y)
    · exact List.mem_cons_self _ _

theorem latestFrom_max (x : MoodLog) (l : List MoodLog) :
    ∀ z ∈ x :: l, z.createdAt ≤ (latestFrom x l).createdAt := by
  induction l generalizing x with
  | nil => simp [latestFrom]
  | cons y ys ih =>
    intro z hz
    simp only [latestFrom]
    rcases List.mem_cons.mp hz with rfl | hz
    · split
      · rename_i hlt; exact le_of_lt hlt
      · exact le_refl _
    · have hzb := ih y z hz
      split
      · exact hzb
      · rename_i hge; exact le_trans hzb (le_of_not_lt hge)

theorem latestOf_eq_none (l : List MoodLog) :
    latestOf l = none ↔ l = [] := by
  cases l <;> simp [latestOf]

theorem latestOf_mem_and_max (l : List MoodLog) :
    ∀ p, latestOf l = some p → p ∈ l ∧ ∀ x ∈ l, x.createdAt ≤ p.createdAt := by
  cases l with
  | nil => intro p h; simp [latestOf] at h
  | cons x xs =>
    intro p h
    obtain rfl : latestFrom x xs = p := by simpa [latestOf] using h
    exact ⟨latestFrom_mem x xs, latestFrom_max x xs⟩

theorem findLatest_eq_none (db : List MoodLog) (u : UserId) :
    findLatest db u = none ↔ ∀ l ∈ db, l.user ≠ u := by
  rw [findLatest, latestOf_eq_none, List.filter_eq_nil_iff]
  constructor
  · intro h l hl
    have := h l hl
    simpa using this
  · intro h l hl
    simpa using h l hl

theorem findLatest_spec (db : List MoodLog) (u : UserId) (p : MoodLog)
    (h : findLatest db u = some p) :
    p ∈ db ∧ p.user = u ∧ ∀ l ∈ db, l.user = u → l.createdAt ≤ p.createdAt := by
  have hm := latestOf_mem_and_max _ p h
  have hmem := List.mem_filter.mp hm.1
  refine ⟨hmem.1, by simpa using hmem.2, ?_⟩
  intro l hl hu
  exact hm.2 l (List.mem_filter.mpr ⟨hl, by simpa using hu⟩)

/-- **C1.** `POST /api/moods` embeds, in the created document, a
`previousMood` equal to the `(mood, intensity, createdAt)` of the user's most
recent prior MoodLog — a log of that user, of maximal creation time, as
selected by the `createdAt`-descending, limit-1 query — and for a user's
first-ever mood log `previousMood` is absent. -/
theorem logMood_embeds_latest_previousMood (db : List MoodLog) (u : UserId)
    (r : LogMoodRequest) (now : Nat) :
    ((∀ l ∈ db, l.user ≠ u) → (logMood db u r now).1.previousMood = none) ∧
    (∀ p, findLatest db u = some p →
      (logMood db u r now).1.previousMood =
          some { mood := p.mood, intensity := p.intensity, timestamp := p.createdAt } ∧
        p ∈ db ∧ p.user = u ∧
        ∀ l ∈ db, l.user = u → l.createdAt ≤ p.createdAt) := by
  constructor
  · intro h
    have hnone : findLatest db u = none := (findLatest_eq_none db u).mpr h
    simp [logMood, applyPreSave, hnone]
    split <;> simp
  · intro p hp
    have hspec := findLatest_spec db u p hp
    refine ⟨?_, hspec⟩
    simp [logMood, applyPreSave, hp]
    split <;> simp

/-- Witness for C1: on a concrete two-log history the embedded `previousMood`
is the later prior log's snapshot, and on an empty history it is absent. -/
theorem logMood_embeds_latest_previousMood_witness :
    (logMood
        [{ user := 1, mood := .sad, intensity := 3, detectionMethod := .text,
           createdAt := 100 },
         { user := 1, mood := .happy, intensity := 7, detectionMethod := .camera,
           createdAt := 200 }]
        1 { mood := .calm, intensity := 5, detectionMethod := .manual } 1000).1.previousMood =
      some { mood := .happy, intensity := 7, timestamp := 200 } ∧
    (logMood [] 1
        { mood := .calm, intensity := 5, detectionMethod := .manual } 1000).1.previousMood =
      none := by
  constructor
  · exact ((logMood_embeds_latest_previousMood _ 1 _ 1000).2
      { user := 1, mood := .happy, intensity := 7, detectionMethod := .camera,
        createdAt := 200 } (by decide)).1
  · exact (logMood_embeds_latest_previousMood [] 1 _ 1000).1 (by simp)

/-- **C2.** When the caller supplies no `context.timeOfDay`, the stored value
is derived from the creation hour `h` by the four fixed bands
(`[5,12)` morning, `[12,17)` afternoon, `[17,21)` evening, else night), with
the boundary hours 5, 12, 17, 21 and 0 mapping to morning, afternoon, evening,
night and night respectively; a caller-supplied `timeOfDay` is stored
unchanged. -/
theorem timeOfDay_derivation_bands :
    (∀ db u r now, r.timeOfDay = none →
      (logMood db u r now).1.context.timeOfDay =
        some (deriveTimeOfDay (hourOfTimestamp now))) ∧
    (∀ db u r now t, r.timeOfDay = some t →
      (logMood db u r now).1.context.timeOfDay = some t) ∧
    (∀ h : Nat,
      (deriveTimeOfDay h = .morning ↔ 5 ≤ h ∧ h < 12) ∧
      (deriveTimeOfDay h = .afternoon ↔ 12 ≤ h ∧ h < 17) ∧
      (deriveTimeOfDay h = .evening ↔ 17 ≤ h ∧ h < 21) ∧
      (deriveTimeOfDay h = .night ↔ ¬(5 ≤ h ∧ h < 21))) ∧
    deriveTimeOfDay 5 = .morning ∧ deriveTimeOfDay 12 = .afternoon ∧
    deriveTimeOfDay 17 = .evening ∧ deriveTimeOfDay 21 = .night ∧
    deriveTimeOfDay 0 = .night := by
  refine ⟨?_, ?_, ?_, by decide, by decide, by decide, by decide, by decide⟩
  · intro db u r now h
    simp [logMood, applyPreSave, h]
  · intro db u r now t h
    simp [logMood, applyPreSave, h]
  · intro h
    by_cases h1 : 5 ≤ h ∧ h < 12 <;>
      by_cases h2 : 12 ≤ h ∧ h < 17 <;>
        by_cases h3 : 17 ≤ h ∧ h < 21 <;>
          simp [deriveTimeOfDay, h1, h2, h3] <;> omega

/-- Witness for C2: a mood logged at 14:00 UTC without a supplied time of day
stores `afternoon`; a supplied `night` at the same hour is kept. -/
theorem timeOfDay_derivation_bands_witness :
    (logMood [] 1 { mood := .happy, intensity := 8, detectionMethod := .text }
        50400000).1.context.timeOfDay = some .afternoon ∧
    (logMood [] 1
        { mood := .happy, intensity := 8, detectionMethod := .text,
          timeOfDay := some .night } 50400000).1.context.timeOfDay = some .night := by
  constructor
  · have h := timeOfDay_derivation_bands.1 []
      1 { mood := .happy, intensity := 8, detectionMethod := .text } 50400000 rfl
    rw [h]; decide
  · exact timeOfDay_derivation_bands.2.1 [] 1
      { mood := .happy, intensity := 8, detectionMethod := .text,
        timeOfDay := some .night } 50400000 .night rfl

/-- **C3.** A second `complete` call on an already-completed game session
fails with the conflict error `Game session already completed` and leaves the
stored collection — in particular every field the first completion set —
unmodified. -/
theorem complete_already_completed_conflict (db : List GameSession)
    (u : UserId) (sid : String) (r : CompleteRequest) (now : Nat)
    (s : GameSession)
    (hfind : db.find? (fun t => t.sessionId == sid && t.user == u) = some s)
    (hdone : s.completed = true) :
    (completeRoute db u sid r now).1 =
        .error (.conflict "Game session already completed") ∧
      (completeRoute db u sid r now).2 = db := by
  simp [completeRoute, hfind, hdone]

/-- Witness for C3: completing the already-completed fixture session again
yields the conflict error and leaves the collection untouched. -/
theorem complete_already_completed_conflict_witness :
    (completeRoute [completedSessionW] 1 "1_3_1000"
        { moodAfter := { mood := .calm, intensity := 6 }, score := 5 } 3000).1 =
      .error (.conflict "Game session already completed") ∧
    (completeRoute [completedSessionW] 1 "1_3_1000"
        { moodAfter := { mood := .calm, intensity := 6 }, score := 5 } 3000).2 =
      [completedSessionW] :=
  complete_already_completed_conflict [completedSessionW] 1 "1_3_1000"
    { moodAfter := { mood := .calm, intensity := 6 }, score := 5 } 3000
    completedSessionW (by decide) (by decide)

theorem mem_ite_singleton_append {α : Type} (a x : α) (c : Prop) [Decidable c]
    (l : List α) :
    a ∈ (if c then [x] else []) ++ l ↔ (c ∧ a = x) ∨ a ∈ l := by
  split
  · rename_i hc; simp [hc, List.mem_cons]
  · rename_i hc; simp [hc]

theorem mem_ite_singleton {α : Type} (a x : α) (c : Prop) [Decidable c] :
    a ∈ (if c then [x] else ([] : List α)) ↔ c ∧ a = x := by
  split
  · rename_i hc; simp [hc]
  · rename_i hc; simp [hc]

theorem moodImproverFlag_iff (t : GameSession) :
    moodImproverFlag t = true ↔ ∃ i, moodImprovement t = some i ∧ 2 ≤ i := by
  cases hmi : moodImprovement t with
  | none => simp [moodImproverFlag, hmi]
  | some i =>
    simp only [moodImproverFlag, hmi]
    constructor
    · intro h
      simp only [Bool.and_eq_true, decide_eq_true_eq] at h
      exact ⟨i, rfl, h.2⟩
    · rintro ⟨j, hj, h2⟩
      obtain rfl : i = j := by injection hj
      simp [h2, show i ≠ 0 by omega]

theorem mem_calculateAchievements (s : GameSession) (a : Achievement) :
    a ∈ (calculateAchievements s).achievements ↔
      (s.gameData.isFirstPlay = true ∧ a = .firstPlay) ∨
      ((s.score = s.maxScore ∧ 0 < s.maxScore) ∧ a = .perfectScore) ∨
      (s.duration < jsOr s.gameData.expectedDuration 300 ∧ a = .quickFinish) ∨
      (moodImproverFlag s = true ∧ a = .moodImprover) ∨
      (3 * jsOr s.gameData.averageScore 0 < 2 * s.score ∧ a = .highScorer) := by
  simp only [calculateAchievements, List.append_assoc, mem_ite_singleton_append,
    mem_ite_singleton]

theorem calculateAchievements_gameData (s : GameSession) :
    (calculateAchievements s).gameData = s.gameData := rfl

theorem calculateAchievements_score (s : GameSession) :
    (calculateAchievements s).score = s.score := rfl

theorem calculateAchievements_maxScore (s : GameSession) :
    (calculateAchievements s).maxScore = s.maxScore := rfl

theorem calculateAchievements_duration (s : GameSession) :
    (calculateAchievements s).duration = s.duration := rfl

theorem calculateAchievements_moodImprovement (s : GameSession) :
    moodImprovement (calculateAchievements s) = moodImprovement s := rfl

/-- **C4.** Achievements are computed at completion from the fixed rule set:
on the completed session, `first-play` is present iff `gameData.isFirstPlay`
(which `start` sets iff the user had no prior session with this game),
`perfect-score` iff the score equals a positive max score, `quick-finish` iff
the duration is below the expected duration (default 300s), `mood-improver`
iff the mood improvement is defined and at least 2, and `high-scorer` iff the
score exceeds 1.5 times the historical average score carried in `gameData`;
a freshly started session has no achievements. -/
theorem achievements_fixed_rules_at_completion :
    (∀ (sessions : List GameSession) (u : UserId) (g : Game) (mb : MoodState)
        (d : Difficulty) (now : Nat),
      (startSession sessions u g mb d now).achievements = [] ∧
      ((startSession sessions u g mb d now).gameData.isFirstPlay = true ↔
        (sessions.filter (fun s => s.user == u && s.game == g.id)).length = 0)) ∧
    (∀ (s : GameSession) (ma : MoodState) (score : Int) (gd : GameDataPatch)
        (now : Nat),
      (Achievement.firstPlay ∈ (completeSession s ma score gd now).achievements ↔
        (completeSession s ma score gd now).gameData.isFirstPlay = true) ∧
      (Achievement.perfectScore ∈ (completeSession s ma score gd now).achievements ↔
        (completeSession s ma score gd now).score =
            (completeSession s ma score gd now).maxScore ∧
          0 < (completeSession s ma score gd now).maxScore) ∧
      (Achievement.quickFinish ∈ (completeSession s ma score gd now).achievements ↔
        (completeSession s ma score gd now).duration <
          jsOr (completeSession s ma score gd now).gameData.expectedDuration 300) ∧
      (Achievement.moodImprover ∈ (completeSession s ma score gd now).achievements ↔
        ∃ i, moodImprovement (completeSession s ma score gd now) = some i ∧ 2 ≤ i) ∧
      (Achievement.highScorer ∈ (completeSession s ma score gd now).achievements ↔
        3 * jsOr (completeSession s ma score gd now).gameData.averageScore 0 <
          2 * (completeSession s ma score gd now).score)) := by
  constructor
  · intro sessions u g mb d now
    exact ⟨rfl, by simp [startSession]⟩
  · intro s ma score gd now
    refine ⟨?_, ?_, ?_, ?_, ?_⟩ <;>
      · rw [show completeSession s ma score gd now =
            calculateAchievements (completeBase s ma score gd now) from rfl,
          mem_calculateAchievements]
        simp [calculateAchievements_gameData, calculateAchievements_score,
          calculateAchievements_maxScore, calculateAchievements_duration,
          calculateAchievements_moodImprovement, moodImproverFlag_iff]

/-- **C8.** `moodImprovement` is `null` on a freshly started session (where
`moodAfter` is unset), and after completion equals
`moodAfter.intensity - moodBefore.intensity` (the intensities are validated
into `[1,10]`, hence nonzero, before the handlers run). -/
theorem moodImprovement_none_before_delta_after :
    (∀ (sessions : List GameSession) (u : UserId) (g : Game) (mb : MoodState)
        (d : Difficulty) (now : Nat),
      moodImprovement (startSession sessions u g mb d now) = none) ∧
    (∀ (s : GameSession) (ma : MoodState) (score : Int) (gd : GameDataPatch)
        (now : Nat), ma.intensity ≠ 0 → s.moodBefore.intensity ≠ 0 →
      moodImprovement (completeSession s ma score gd now) =
        some (ma.intensity - s.moodBefore.intensity)) := by
  constructor
  · intro sessions u g mb d now
    rfl
  · intro s ma score gd now ha hb
    rw [show completeSession s ma score gd now =
        calculateAchievements (completeBase s ma score gd now) from rfl,
      calculateAchievements_moodImprovement]
    simp [moodImprovement, completeBase, ha, hb]

/-- Witness for C8: a concrete fresh session has no mood improvement, and
completing a session with before-intensity 4 and after-intensity 7 yields a
mood improvement of 3. -/
theorem moodImprovement_none_before_delta_after_witness :
    moodImprovement
        (startSession [] 1 { id := 3, difficulty := .easy, estimatedDuration := 5 }
          { mood := .sad, intensity := 4 } .easy 1000) = none ∧
    moodImprovement
        (completeSession
          { user := 1, game := 3, sessionId := "1_3_1000",
            moodBefore := { mood := .sad, intensity := 4 }, difficulty := .easy,
            startedAt := 1000 }
          { mood := .happy, intensity := 7 } 10 {} 2000) = some 3 := by
  constructor
  · exact moodImprovement_none_before_delta_after.1 [] 1
      { id := 3, difficulty := .easy, estimatedDuration := 5 }
      { mood := .sad, intensity := 4 } .easy 1000
  · have h := moodImprovement_none_before_delta_after.2
      { user := 1, game := 3, sessionId := "1_3_1000",
        moodBefore := { mood := .sad, intensity := 4 }, difficulty := .easy,
        startedAt := 1000 }
      { mood := .happy, intensity := 7 } 10 {} 2000 (by decide) (by decide)
    rw [h]
    rfl

theorem sum_map_insertBy {α : Type} (le : α → α → Bool) (x : α) (l : List α)
    (f : α → ℕ) :
    ((insertBy le x l).map f).sum = f x + (l.map f).sum := by
  induction l with
  | nil => simp [insertBy]
  | cons y ys ih =>
    simp only [insertBy]
    split
    · simp
    · simp [ih]
      omega

theorem sum_map_sortBy {α : Type} (le : α → α → Bool) (l : List α) (f : α → ℕ) :
    ((sortBy le l).map f).sum = (l.map f).sum := by
  induction l with
  | nil => rfl
  | cons x xs ih => simp [sortBy, sum_map_insertBy, ih]

theorem sum_counts_filterMap (logs : List MoodLog) (ms : List Mood) :
    ((ms.filterMap (freqGroup logs)).map (·.count)).sum =
      (ms.map (fun m => logs.countP (fun l => l.mood == m))).sum := by
  induction ms with
  | nil => rfl
  | cons m ms ih =>
    rw [List.filterMap_cons]
    cases hg : freqGroup logs m with
    | none =>
      have hlen : (logs.filter (fun l => l.mood == m)).length = 0 := by
        by_contra hne
        simp [freqGroup, hne] at hg
      simp only [List.map_cons, List.sum_cons, ih,
        List.countP_eq_length_filter, hlen]
      omega
    | some e =>
      have he : e.count = (logs.filter (fun l => l.mood == m)).length := by
        by_cases hlen : (logs.filter (fun l => l.mood == m)).length = 0
        · simp [freqGroup, hlen] at hg
        · simp [freqGroup, hlen] at hg
          rw [← hg]
      simp only [List.map_cons, List.sum_cons, ih, he,
        List.countP_eq_length_filter]

theorem sum_counts_over_allMoods (logs : List MoodLog) :
    (allMoods.map (fun m => logs.countP (fun l => l.mood == m))).sum =
      logs.length := by
  induction logs with
  | nil => rfl
  | cons x xs ih =>
    have hone : ∀ mo : Mood,
        (allMoods.map (fun m => if (mo == m) = true then 1 else 0)).sum = 1 := by
      intro mo; cases mo <;> rfl
    simp only [List.countP_cons]
    rw [List.sum_map_add, ih, hone x.mood, List.length_cons]

/-- Counterexample for C5. On the one-log window `[freqLogW]` the frequency
endpoint's only group carries `count = 1` and `avgIntensity = 5` — the
response schema has no percentage field, and neither reported number equals
the claimed percentage share `count / total * 100 = 100`; on an empty window
the endpoint returns the empty list, not a zero-valued summary record. -/
theorem moodFrequency_reports_counts_not_percentages_cex :
    (getMoodFrequency [freqLogW] 1 0).map (·.mood) = [.happy] ∧
    (getMoodFrequency [freqLogW] 1 0).map (·.count) = [1] ∧
    (getMoodFrequency [freqLogW] 1 0).map (·.avgIntensity) = [(5 : ℚ)] ∧
    (1 : ℚ) ≠ 100 ∧ (5 : ℚ) ≠ 100 ∧
    getMoodFrequency [] 1 0 = [] := by
  refine ⟨by decide, by decide, ?_, by norm_num, by norm_num, rfl⟩
  show (sortBy freqBefore
      (allMoods.filterMap (freqGroup (windowLogs [freqLogW] 1 0)))).map
        (·.avgIntensity) = [(5 : ℚ)]
  norm_num [windowLogs, freqLogW, freqGroup, allMoods, sortBy, insertBy,
    List.filterMap_cons]

/-- **C5 (amended).** `GET /api/moods/frequency` reports, for each mood
present in the window, its log count and average intensity (sorted by
descending count, no percentage field); the counts across all reported moods
sum to the total number of the user's logs in the window, and an empty window
yields the empty list (a success response, not an error). -/
theorem moodFrequency_counts_sum_and_empty (db : List MoodLog) (u : UserId)
    (t : Nat) :
    ((getMoodFrequency db u t).map (·.count)).sum = (windowLogs db u t).length ∧
    (getMoodFrequency db u t = [] ↔ windowLogs db u t = []) := by
  have hsum : ((getMoodFrequency db u t).map (·.count)).sum =
      (windowLogs db u t).length := by
    rw [getMoodFrequency, sum_map_sortBy, sum_counts_filterMap,
      sum_counts_over_allMoods]
  refine ⟨hsum, ?_, ?_⟩
  · intro h
    rw [h] at hsum
    simp at hsum
    exact List.length_eq_zero.mp hsum.symm
  · intro h
    rw [getMoodFrequency, h]
    rfl

/-- **C6.** Every song returned by `GET /api/songs/recommendations` has its
stored energy inside the clamped band `[max 1 (e-2), min 10 (e+2)]` around a
supplied energy `e` — for `e = 8`, inside `[6, 10]` — and likewise for a
supplied valence. -/
theorem recommendSongs_energy_valence_band (db : List Song) (u : UserId)
    (r : RecRequest) (s : Song) (hs : s ∈ recommendSongs db u r) :
    (∀ e, r.energy = some e →
      max 1 (e - 2) ≤ s.energy ∧ s.energy ≤ min 10 (e + 2)) ∧
    (∀ v, r.valence = some v →
      max 1 (v - 2) ≤ s.valence ∧ s.valence ≤ min 10 (v + 2)) ∧
    (r.energy = some 8 → 6 ≤ s.energy ∧ s.energy ≤ 10) := by
  have hf : recFilter u r s = true := by
    have h1 := List.take_subset _ _ hs
    have h2 := (mem_sortBy recBefore _ s).mp h1
    exact (List.mem_filter.mp h2).2
  simp only [recFilter, Bool.and_eq_true] at hf
  obtain ⟨⟨⟨-, -⟩, he⟩, hv⟩ := hf
  have hE : ∀ e, r.energy = some e →
      max 1 (e - 2) ≤ s.energy ∧ s.energy ≤ min 10 (e + 2) := by
    intro e hee
    rw [hee] at he
    simpa using he
  refine ⟨hE, ?_, ?_⟩
  · intro v hvv
    rw [hvv] at hv
    simpa using hv
  · intro h8
    have h := hE 8 h8
    have h6 : max 1 ((8 : ℤ) - 2) = 6 := by decide
    have h10 : min 10 ((8 : ℤ) + 2) = 10 := by decide
    rw [h6, h10] at h
    exact h

/-- Witness for C6: with `energy = 8`, the concrete public song of energy 7
is recommended and its energy lies in `[6, 10]`. -/
theorem recommendSongs_energy_valence_band_witness :
    songW ∈ recommendSongs [songW] 1 { energy := some 8 } ∧
    6 ≤ songW.energy ∧ songW.energy ≤ 10 := by
  have hmem : songW ∈ recommendSongs [songW] 1 { energy := some 8 } := by decide
  exact ⟨hmem,
    (recommendSongs_energy_valence_band [songW] 1 { energy := some 8 } songW
      hmem).2.2 rfl⟩

/-- **C7.** A successfully auto-generated playlist consists exactly of the
selected songs, and every selected song is public or uploaded by the
requesting user — the playlist never contains a song that is both non-public
and not owned by the requester. -/
theorem autoGenerate_songs_visible_to_requester (db : List Song) (u : UserId)
    (r : AGRequest) (p : Playlist) (h : autoGenerate db u r = .ok p) :
    p.songs = (agSongs db u r).map (fun s => s.id) ∧
    ∀ s ∈ agSongs db u r, s.isPublic = true ∨ s.uploadedBy = u := by
  constructor
  · simp only [autoGenerate] at h
    split at h
    · exact absurd h (by simp)
    · injection h with h2
      rw [← h2]
  · intro s hsin
    have hf : agSongFilter u r s = true := by
      have h1 := List.take_subset _ _ hsin
      have h2 := (mem_sortBy agBefore _ s).mp h1
      exact (List.mem_filter.mp h2).2
    simp only [agSongFilter, Bool.and_eq_true] at hf
    obtain ⟨⟨⟨hvis, -⟩, -⟩, -⟩ := hf
    simpa using hvis

/-- Witness for C7: for user 2, over one public song and one private song
user 2 uploaded, auto-generation succeeds with exactly those two songs, each
public or owned by the requester. -/
theorem autoGenerate_songs_visible_to_requester_witness :
    autoGenerate [songW, privateSongW] 2 {} = .ok agPlaylistW ∧
    agPlaylistW.songs = (agSongs [songW, privateSongW] 2 {}).map (fun s => s.id) ∧
    ∀ s ∈ agSongs [songW, privateSongW] 2 {},
      s.isPublic = true ∨ s.uploadedBy = 2 := by
  have h : autoGenerate [songW, privateSongW] 2 {} = .ok agPlaylistW := rfl
  exact ⟨h, autoGenerate_songs_visible_to_requester [songW, privateSongW] 2 {}
    agPlaylistW h⟩

/-- **C9.** A mood-log update by the owner can change only `notes`, `context`
and `triggers`: every other stored field (`mood`, `intensity`,
`detectionMethod`, `confidence`, `previousMood`, `sessionId`, `user`,
`createdAt`) is unchanged, even when the request body supplies new values for
those fields. -/
theorem updateMood_frame (m : MoodLog) (requester : UserId)
    (b : MoodUpdateBody) (m' : MoodLog)
    (h : updateMoodRoute m requester b = .ok m') :
    m'.mood = m.mood ∧ m'.intensity = m.intensity ∧
    m'.detectionMethod = m.detectionMethod ∧ m'.confidence = m.confidence ∧
    m'.previousMood = m.previousMood ∧ m'.sessionId = m.sessionId ∧
    m'.user = m.user ∧ m'.createdAt = m.createdAt := by
  simp only [updateMoodRoute] at h
  split at h
  · exact absurd h (by simp)
  · injection h with h2
    rw [← h2]
    simp only [applyPreSave, applyMoodUpdate]
    split <;> exact ⟨rfl, rfl, rfl, rfl, rfl, rfl, rfl, rfl⟩

/-- Witness for C9: a body attempting to overwrite every field of a concrete
log changes only notes and triggers; mood, intensity and the rest are
untouched. -/
theorem updateMood_frame_witness :
    updateMoodRoute moodLogW 1 bodyW = .ok moodLogUpdatedW ∧
    moodLogUpdatedW.mood = moodLogW.mood ∧
    moodLogUpdatedW.intensity = moodLogW.intensity ∧
    moodLogUpdatedW.detectionMethod = moodLogW.detectionMethod ∧
    moodLogUpdatedW.confidence = moodLogW.confidence ∧
    moodLogUpdatedW.previousMood = moodLogW.previousMood ∧
    moodLogUpdatedW.sessionId = moodLogW.sessionId ∧
    moodLogUpdatedW.user = moodLogW.user ∧
    moodLogUpdatedW.createdAt = moodLogW.createdAt := by
  have h : updateMoodRoute moodLogW 1 bodyW = .ok moodLogUpdatedW := rfl
  exact ⟨h, updateMood_frame moodLogW 1 bodyW moodLogUpdatedW h⟩

/-- **C10.** The play-count routes succeed for every found song/playlist and
any authenticated caller, incrementing the stored `playCount` by exactly one
with no ownership or visibility check — in particular on a private resource
not owned by the caller — whereas the corresponding `get` routes reject a
private resource of another owner with a 403. -/
theorem play_routes_increment_without_access_check :
    (∀ (s : Song) (u : UserId) (now : Nat),
      playSongRoute (some s) u now =
        .ok { s with playCount := s.playCount + 1, updatedAt := now }) ∧
    (∀ (p : Playlist) (u : UserId),
      playPlaylistRoute (some p) u = .ok { p with playCount := p.playCount + 1 }) ∧
    (∀ (s : Song) (u : UserId), s.isPublic = false → s.uploadedBy ≠ u →
      getSongRoute (some s) u =
        .error (.authorization "Access denied to this song")) ∧
    (∀ (p : Playlist) (u : UserId), p.isPublic = false → p.owner ≠ u →
      getPlaylistRoute (some p) u =
        .error (.authorization "Access denied to this playlist")) := by
  refine ⟨fun s u now => rfl, fun p u => rfl, ?_, ?_⟩
  · intro s u h1 h2
    simp [getSongRoute, h1, h2]
  · intro p u h1 h2
    simp [getPlaylistRoute, h1, h2]

/-- Witness for C10: user 1 playing user 2's private song and private
playlist succeeds and bumps each play count from its stored value by one,
while the corresponding `get` routes deny user 1 access. -/
theorem play_routes_increment_without_access_check_witness :
    playSongRoute (some privateSongW) 1 7 =
      .ok { privateSongW with playCount := 1, updatedAt := 7 } ∧
    playPlaylistRoute (some privatePlaylistW) 1 =
      .ok { privatePlaylistW with playCount := 5 } ∧
    getSongRoute (some privateSongW) 1 =
      .error (.authorization "Access denied to this song") ∧
    getPlaylistRoute (some privatePlaylistW) 1 =
      .error (.authorization "Access denied to this playlist") := by
  refine ⟨?_, ?_, ?_, ?_⟩
  · have h := play_routes_increment_without_access_check.1 privateSongW 1 7
    rw [h]
    rfl
  · have h := play_routes_increment_without_access_check.2.1 privatePlaylistW 1
    rw [h]
    rfl
  · exact play_routes_increment_without_access_check.2.2.1 privateSongW 1 rfl
      (by decide)
  · exact play_routes_increment_without_access_check.2.2.2 privatePlaylistW 1 rfl
      (by decide)

end MelodyMind
